import Mathlib

/-!
# Map.jsx: marker aggregation and viewport recentering

A shallow embedding of `src/components/Map.jsx`: the four fetch handlers
(`getFoodSites`, `getShelters`, `getSexHealthClinics`, `getCunyFoodSites`),
the component state they write, the `RecenterAutomatically` effect and the
marker layer produced by the render function.
-/

namespace MapJsx

/-! ## JavaScript values -/

/-- A JavaScript number. Finite values are kept as rationals (every IEEE double
other than NaN, the infinities and negative zero is one); `finite 0` is `+0`.
The component never does arithmetic on a number: it only tests it and copies it. -/
inductive JSNumber where
  | nan
  | negZero
  | infinity (negative : Bool)
  | finite (q : ℚ)
  deriving DecidableEq, Repr

/-- A JavaScript value as the component sees it. A non-primitive value (array,
object, function) is a reference: the component never reads inside a field
value, it only tests it and copies it. Equality of two values of this type is
JavaScript's `Object.is`. -/
inductive JSVal where
  | undefined
  | null
  | bool (b : Bool)
  | number (n : JSNumber)
  | string (s : String)
  | object (ref : Nat)
  deriving DecidableEq, Repr

/-- ToBoolean: `undefined`, `null`, `false`, `NaN`, `+0`, `-0` and the empty
string are falsy, every other value is truthy. -/
def JSVal.truthy : JSVal → Bool
  | .undefined => false
  | .null => false
  | .bool b => b
  | .number .nan => false
  | .number .negZero => false
  | .number (.infinity _) => true
  | .number (.finite q) => decide (q ≠ 0)
  | .string s => decide (s ≠ "")
  | .object _ => true

/-- The operator `a && b`: `a` when `a` is falsy, else `b`. -/
def JSVal.and (a b : JSVal) : JSVal :=
  if a.truthy then b else a

/-- The test `v !== undefined`. -/
def JSVal.isDefined : JSVal → Bool
  | .undefined => false
  | _ => true

/-- A value that is `undefined` (property absent) or `null` (SQL NULL). -/
def JSVal.missing : JSVal → Bool
  | .undefined => true
  | .null => true
  | _ => false

/-- The properties of a plain object, such as a row returned by the backend. -/
abbrev Record := List (String × JSVal)

/-- Property read `site.k`: the value stored under `k`, `undefined` when the
object has no such property. -/
def Record.get (site : Record) (k : String) : JSVal :=
  (site.lookup k).getD .undefined

/-- An exception thrown by the JavaScript runtime. -/
inductive JSError where
  | typeError (msg : String)
  deriving DecidableEq, Repr

deriving instance DecidableEq for Except

/-! ## Component state -/

/-- A marker object built by one of the fetch handlers. `contact` and `address`
are `none` when the object literal has no such property. -/
structure Marker where
  geocode : JSVal × JSVal
  popUp : JSVal
  contact : Option JSVal := none
  address : Option JSVal := none
  deriving DecidableEq, Repr

/-- The value passed as the `location` prop and held in `currLoc`, as far as a
property read can tell: reading a property of `undefined` or `null` throws,
reading one of anything else yields the property or `undefined` (a boolean,
number or string has neither `latitude` nor `longitude` and reads as an object
without properties). -/
inductive Location where
  | undefined
  | null
  | object (props : Record)
  deriving DecidableEq, Repr

/-- Property read `loc.k`. -/
def Location.getProp (loc : Location) (k : String) : Except JSError JSVal :=
  match loc with
  | .undefined =>
    .error (.typeError ("Cannot read properties of undefined (reading " ++ k ++ ")"))
  | .null =>
    .error (.typeError ("Cannot read properties of null (reading " ++ k ++ ")"))
  | .object props => .ok (Record.get props k)

/-- The five `useState` cells of `Map` (lines 26-32). -/
structure MapState where
  currLoc : Location
  foodSiteMarkers : List Marker
  shelterMarkers : List Marker
  sexHealthClinicMarkers : List Marker
  cunyFoodSiteMarkers : List Marker
  deriving DecidableEq, Repr

/-- The initial values given to `useState`: `currLoc` is the empty object and
every marker store is the empty array. -/
def MapState.init : MapState :=
  { currLoc := .object [],
    foodSiteMarkers := [],
    shelterMarkers := [],
    sexHealthClinicMarkers := [],
    cunyFoodSiteMarkers := [] }

/-! ## Fetch handlers -/

/-- The object `{ data, error }` that `await supabase.from(name).select()`
resolves to: `data` is `null` or an array of rows. -/
structure PostgrestResponse where
  data : Option (List Record)
  error : JSVal
  deriving DecidableEq, Repr

/-- The method call `data.filter(...)` when `data` is `null`. -/
def nullData : JSError :=
  .typeError "Cannot read properties of null (reading filter)"

/-- Lines 69-87, from the point where the awaited response `res` is available.
The result is how the returned promise settles: `ok s` when the function returns
with component state `s`, `error e` when it throws `e`. The console output is
not modelled. -/
def getFoodSites (res : PostgrestResponse) (s : MapState) : Except JSError MapState :=
  if res.error.truthy then
    .ok s
  else
    match res.data with
    | none => .error nullData
    | some data =>
      let markers :=
        (data.filter fun site =>
          (((site.get "LATITUDE").and (site.get "LONGITUDE")).and (site.get "PHONE")).truthy).map
          fun site =>
            { geocode := (site.get "LATITUDE", site.get "LONGITUDE"),
              popUp := site.get "PROGRAM",
              contact := some (site.get "PHONE"),
              address := some (site.get "ADDRESS") }
      .ok { s with foodSiteMarkers := markers }

/-- Lines 90-106. -/
def getShelters (res : PostgrestResponse) (s : MapState) : Except JSError MapState :=
  if res.error.truthy then
    .ok s
  else
    match res.data with
    | none => .error nullData
    | some data =>
      let markers :=
        (data.filter fun site =>
          ((site.get "Latitude").and (site.get "Longitude")).truthy).map
          fun site =>
            { geocode := (site.get "Latitude", site.get "Longitude"),
              popUp := site.get "Center Name" }
      .ok { s with shelterMarkers := markers }

/-- Lines 109-125. -/
def getSexHealthClinics (res : PostgrestResponse) (s : MapState) : Except JSError MapState :=
  if res.error.truthy then
    .ok s
  else
    match res.data with
    | none => .error nullData
    | some data =>
      let markers :=
        (data.filter fun site =>
          ((site.get "LATITUDE").and (site.get "LONGITUDE")).truthy).map
          fun site =>
            { geocode := (site.get "LATITUDE", site.get "LONGITUDE"),
              popUp := site.get "Clinic Name" }
      .ok { s with sexHealthClinicMarkers := markers }

/-- Lines 128-145. -/
def getCunyFoodSites (res : PostgrestResponse) (s : MapState) : Except JSError MapState :=
  if res.error.truthy then
    .ok s
  else
    match res.data with
    | none => .error nullData
    | some data =>
      let markers :=
        (data.filter fun site =>
          (((site.get "Latitude").and (site.get "Longitude")).and (site.get "phone")).truthy).map
          fun site =>
            { geocode := (site.get "Latitude", site.get "Longitude"),
              popUp := site.get "School",
              contact := some (site.get "phone") }
      .ok { s with cunyFoodSiteMarkers := markers }

/-- The four marker categories. -/
inductive Category where
  | food
  | shelters
  | sexHealthClinics
  | cunyFood
  deriving DecidableEq, Repr

/-- The collection each handler reads (lines 70, 91, 110, 129). -/
def Category.collection : Category → String
  | .food => "food"
  | .shelters => "shelters"
  | .sexHealthClinics => "sex_health_clinics"
  | .cunyFood => "cuny_food"

/-- The handler of a category. -/
def fetchHandler : Category → PostgrestResponse → MapState → Except JSError MapState
  | .food => getFoodSites
  | .shelters => getShelters
  | .sexHealthClinics => getSexHealthClinics
  | .cunyFood => getCunyFoodSites

/-- The marker store of a category. -/
def MapState.store (s : MapState) : Category → List Marker
  | .food => s.foodSiteMarkers
  | .shelters => s.shelterMarkers
  | .sexHealthClinics => s.sexHealthClinicMarkers
  | .cunyFood => s.cunyFoodSiteMarkers

/-- The requests issued by the mount effect (lines 57-62), in call order. None
of the four calls is awaited, so the responses may arrive in any order. -/
def fetchOnMount : List Category :=
  [.food, .shelters, .sexHealthClinics, .cunyFood]

/-- The arrival of the response to one request. -/
structure Completion where
  category : Category
  response : PostgrestResponse
  deriving DecidableEq, Repr

/-- The component state after a response has been handled: the state the handler
returns with, or the unchanged state when the handler throws (the rejected
promise is dropped by the mount effect, which awaits nothing). -/
def complete (s : MapState) (c : Completion) : MapState :=
  match fetchHandler c.category c.response s with
  | .ok s1 => s1
  | .error _ => s

/-- The component state after a sequence of responses, starting from the state
at mount. -/
def afterCompletions (cs : List Completion) : MapState :=
  cs.foldl complete MapState.init

/-- The latitude field of a category (LATITUDE for food sites and clinics,
Latitude for shelters and campus food sites). -/
def Category.latField : Category → String
  | .food => "LATITUDE"
  | .shelters => "Latitude"
  | .sexHealthClinics => "LATITUDE"
  | .cunyFood => "Latitude"

/-- The longitude field of a category (LONGITUDE for food sites and clinics,
Longitude for shelters and campus food sites). -/
def Category.lonField : Category → String
  | .food => "LONGITUDE"
  | .shelters => "Longitude"
  | .sexHealthClinics => "LONGITUDE"
  | .cunyFood => "Longitude"

/-! ## Recentering -/

/-- Modelled from the spec: the map collaborator (the Leaflet map object, which
is not part of this repository) with its imperative "set viewport center and
zoom" operation. `setViewCalls` records, oldest first, the calls made to it. -/
structure LeafletMap where
  center : JSVal × JSVal
  zoom : JSVal
  setViewCalls : List ((JSVal × JSVal) × JSVal)
  deriving DecidableEq, Repr

/-- Modelled from the spec: `map.setView(center, zoom)` of the map collaborator
sets the viewport center and zoom to its arguments. -/
def LeafletMap.setView (map : LeafletMap) (center : JSVal × JSVal) (zoom : JSVal) :
    LeafletMap :=
  { center := center, zoom := zoom, setViewCalls := map.setViewCalls ++ [(center, zoom)] }

/-- The viewport of a map: its center and its zoom. -/
def LeafletMap.viewport (map : LeafletMap) : (JSVal × JSVal) × JSVal :=
  (map.center, map.zoom)

/-- The map as `MapContainer` creates it (line 149). -/
def LeafletMap.init : LeafletMap :=
  { center := (.number (.finite 40.768538), .number (.finite (-73.964741))),
    zoom := .number (.finite 13),
    setViewCalls := [] }

/-- Lines 18-20: the body of the effect of `RecenterAutomatically`. -/
def recenterEffect (lat lng : JSVal) (map : LeafletMap) : LeafletMap :=
  if lat.isDefined && lng.isDefined then
    map.setView (lat, lng) (.number (.finite 13))
  else
    map

/-- A mounted `RecenterAutomatically`: the values of `lat` and `lng` at its last
commit (`none` before the first one) and the map that `useMap()` returns. -/
structure Recenter where
  deps : Option (JSVal × JSVal)
  map : LeafletMap
  deriving DecidableEq, Repr

/-- Lines 15-23: one commit of `RecenterAutomatically` with props `lat` and
`lng`. The effect runs after the first commit and after every commit in which a
dependency of `[lat, lng, map]` is not `Object.is`-equal to its previous value;
the map object is the same at every commit. -/
def RecenterAutomatically (lat lng : JSVal) (r : Recenter) : Recenter :=
  if r.deps = some (lat, lng) then
    r
  else
    { deps := some (lat, lng), map := recenterEffect lat lng r.map }

/-- A sequence of commits of `RecenterAutomatically`, one per pair. -/
def recenterAll (updates : List (JSVal × JSVal)) (r : Recenter) : Recenter :=
  updates.foldl (fun r u => RecenterAutomatically u.1 u.2 r) r

/-! ## Rendering -/

/-- An `Icon` as constructed in lines 35-54. -/
structure Icon where
  iconUrl : String
  iconSize : Nat × Nat
  deriving DecidableEq, Repr

/-- Lines 35-38 (not used by the marker layer). -/
def dentalIcon : Icon :=
  { iconUrl := "https://www.svgrepo.com/show/455526/dental-plus.svg", iconSize := (38, 38) }

/-- Lines 39-42. -/
def foodSiteIcon : Icon :=
  { iconUrl := "https://www.svgrepo.com/show/494450/food-market-purchasing.svg",
    iconSize := (38, 38) }

/-- Lines 43-46. -/
def shelterMarkerIcon : Icon :=
  { iconUrl := "https://www.svgrepo.com/show/126102/shelter.svg", iconSize := (38, 38) }

/-- Lines 47-50. -/
def sexHealthClinicMarkerIcon : Icon :=
  { iconUrl := "https://www.svgrepo.com/show/326199/health-worker.svg", iconSize := (38, 38) }

/-- Lines 51-54. -/
def cunyFoodMarkerIcon : Icon :=
  { iconUrl := "https://www.svgrepo.com/show/533533/school-flag.svg", iconSize := (38, 38) }

/-- A child of a `<p>` element: literal text or the value of an expression. -/
inductive Child where
  | text (s : String)
  | value (v : JSVal)
  deriving DecidableEq, Repr

/-- A `<Marker>` element of the cluster group: its key, its position, its icon
and the paragraphs of its `<Popup>`. -/
structure Pin where
  key : String
  position : JSVal × JSVal
  icon : Icon
  popup : List (List Child)
  deriving DecidableEq, Repr

/-- Property read `marker.contact`. -/
def Marker.readContact (marker : Marker) : JSVal :=
  marker.contact.getD .undefined

/-- Property read `marker.address`. -/
def Marker.readAddress (marker : Marker) : JSVal :=
  marker.address.getD .undefined

/-- Lines 155-167. -/
def foodPin (index : Nat) (marker : Marker) : Pin :=
  { key := "food-" ++ toString index,
    position := marker.geocode,
    icon := foodSiteIcon,
    popup := [[.value marker.popUp],
              [.text "Contact: ", .value marker.readContact],
              [.text "Address: ", .value marker.readAddress]] }

/-- Lines 168-178. -/
def shelterPin (index : Nat) (marker : Marker) : Pin :=
  { key := "shelter-" ++ toString index,
    position := marker.geocode,
    icon := shelterMarkerIcon,
    popup := [[.value marker.popUp]] }

/-- Lines 179-189. -/
def clinicPin (index : Nat) (marker : Marker) : Pin :=
  { key := "clinic-" ++ toString index,
    position := marker.geocode,
    icon := sexHealthClinicMarkerIcon,
    popup := [[.value marker.popUp]] }

/-- Lines 190-201. -/
def cunyFoodPin (index : Nat) (marker : Marker) : Pin :=
  { key := "cunyfood-" ++ toString index,
    position := marker.geocode,
    icon := cunyFoodMarkerIcon,
    popup := [[.value marker.popUp], [.value marker.readContact]] }

/-- Lines 154-202: the children of `MarkerClusterGroup`. -/
def markerLayer (s : MapState) : List Pin :=
  s.foodSiteMarkers.mapIdx foodPin
    ++ s.shelterMarkers.mapIdx shelterPin
    ++ s.sexHealthClinicMarkers.mapIdx clinicPin
    ++ s.cunyFoodSiteMarkers.mapIdx cunyFoodPin

/-- What one evaluation of the body of `Map` hands to React: the marker layer
and the props of `RecenterAutomatically`. -/
structure MapView where
  pins : List Pin
  lat : JSVal
  lng : JSVal
  deriving DecidableEq, Repr

/-- Lines 147-209: the element tree returned by `Map`, or the exception thrown
while building it. -/
def render (s : MapState) : Except JSError MapView := do
  let pins := markerLayer s
  let lat ← s.currLoc.getProp "latitude"
  let lng ← s.currLoc.getProp "longitude"
  pure { pins := pins, lat := lat, lng := lng }

/-- The mounted widget: the state of `Map` and its `RecenterAutomatically`. -/
structure Widget where
  state : MapState
  recenter : Recenter
  deriving DecidableEq, Repr

/-- Lines 64-66 and the render that follows: the effect stores the new
`location` prop in `currLoc`, `Map` renders again and `RecenterAutomatically`
commits with the props read from `currLoc`. -/
def deliverLocation (location : Location) (w : Widget) : Except JSError Widget := do
  let s := { w.state with currLoc := location }
  let view ← render s
  pure { state := s, recenter := RecenterAutomatically view.lat view.lng w.recenter }

/-- Mounting `<Map location=... />`: the first render from the initial state,
the first commit of `RecenterAutomatically`, then the effects. The fetch effect
only issues the four requests of `fetchOnMount`; the location effect delivers
the `location` prop. -/
def mount (location : Location) : Except JSError Widget := do
  let s := MapState.init
  let view ← render s
  let r := RecenterAutomatically view.lat view.lng { deps := none, map := LeafletMap.init }
  deliverLocation location { state := s, recenter := r }

/-! ## The specification's normalisation pipeline -/

/-- A row of the specification's field table: the source field of each marker
field of a category. -/
structure FieldMap where
  latField : String
  lonField : String
  labelField : String
  contactField : Option String
  addressField : Option String
  deriving DecidableEq, Repr

/-- The specification's field table. -/
def specFieldMap : Category → FieldMap
  | .food =>
    { latField := "LATITUDE", lonField := "LONGITUDE", labelField := "PROGRAM",
      contactField := some "PHONE", addressField := some "ADDRESS" }
  | .shelters =>
    { latField := "Latitude", lonField := "Longitude", labelField := "Center Name",
      contactField := none, addressField := none }
  | .sexHealthClinics =>
    { latField := "LATITUDE", lonField := "LONGITUDE", labelField := "Clinic Name",
      contactField := none, addressField := none }
  | .cunyFood =>
    { latField := "Latitude", lonField := "Longitude", labelField := "School",
      contactField := some "phone", addressField := none }

/-- The specification's validity predicate: the latitude field and the longitude
field are truthy and, for a category with a contact field, that field is truthy
too. -/
def specValid (fm : FieldMap) (site : Record) : Bool :=
  (site.get fm.latField).truthy && (site.get fm.lonField).truthy &&
    match fm.contactField with
    | some k => (site.get k).truthy
    | none => true

/-- The specification's marker of a row: the geocode pair and the label, contact
and address copied from the category's fields. -/
def specMarker (fm : FieldMap) (site : Record) : Marker :=
  { geocode := (site.get fm.latField, site.get fm.lonField),
    popUp := site.get fm.labelField,
    contact := fm.contactField.map site.get,
    address := fm.addressField.map site.get }

/-- The specification's record normalizer: the valid rows, in their order, each
converted to a marker. -/
def specNormalize (c : Category) (data : List Record) : List Marker :=
  (data.filter (specValid (specFieldMap c))).map (specMarker (specFieldMap c))

/-- The component state with the store of one category replaced. -/
def MapState.setStore (s : MapState) (c : Category) (markers : List Marker) : MapState :=
  match c with
  | .food => { s with foodSiteMarkers := markers }
  | .shelters => { s with shelterMarkers := markers }
  | .sexHealthClinics => { s with sexHealthClinicMarkers := markers }
  | .cunyFood => { s with cunyFoodSiteMarkers := markers }

/-- A coordinate that is the number zero (`0` or `-0`). -/
def JSVal.isZero : JSVal → Bool
  | .number (.finite q) => decide (q = 0)
  | .number .negZero => true
  | _ => false

/-! ## Scenario data and auxiliary predicates -/

/-- The food row of scenario A. -/
def scenarioARow : Record :=
  [("LATITUDE", .number (.finite 40.7)), ("LONGITUDE", .number (.finite (-73.9))),
   ("PROGRAM", .string "Community Pantry"), ("PHONE", .string "555-1234"),
   ("ADDRESS", .string "1 Main St")]

/-- The marker of scenario A. -/
def scenarioAMarker : Marker :=
  { geocode := (.number (.finite 40.7), .number (.finite (-73.9))),
    popUp := .string "Community Pantry",
    contact := some (.string "555-1234"),
    address := some (.string "1 Main St") }

/-- A failed response: no data and an error descriptor. -/
def failedResponse : PostgrestResponse :=
  { data := none, error := .object 1 }

/-- A shelters row with both coordinates. -/
def shelterRow : Record :=
  [("Center Name", .string "Haven"), ("Latitude", .number (.finite 40.7)),
   ("Longitude", .number (.finite (-73.9)))]

/-- A clinics row with both coordinates. -/
def clinicRow : Record :=
  [("Clinic Name", .string "Chelsea"), ("LATITUDE", .number (.finite 40.74)),
   ("LONGITUDE", .number (.finite (-74)))]

/-- A campus food row with both coordinates and a phone. -/
def cunyRow : Record :=
  [("School", .string "Hunter College"), ("Latitude", .number (.finite 40.76)),
   ("Longitude", .number (.finite (-73.96))), ("phone", .string "555-0000")]

/-- While a mounted `RecenterAutomatically` only commits, a defined pair in its
dependencies is the center of the map, at zoom 13. -/
def Recenter.centered (r : Recenter) : Prop :=
  ∀ lat lng, r.deps = some (lat, lng) → lat ≠ .undefined → lng ≠ .undefined →
    r.map.viewport = ((lat, lng), .number (.finite 13))

/-- The first location of scenario D. -/
def scenarioDFirst : Location :=
  .object [("latitude", .number (.finite 40.0)), ("longitude", .number (.finite (-74.0)))]

/-- The second location of scenario D. -/
def scenarioDSecond : Location :=
  .object [("latitude", .number (.finite 40.1)), ("longitude", .number (.finite (-74.0)))]

/-- The component after it has centered the map on `[40.0, -74.0]` and the viewer
has then dragged the map to `[1, 2]` at zoom 5: the dependencies are those of
the last commit, the map is where the viewer left it. -/
def movedAfterCentering : Recenter :=
  { deps := some (.number (.finite 40.0), .number (.finite (-74.0))),
    map :=
      { center := (.number (.finite 1), .number (.finite 2)),
        zoom := .number (.finite 5),
        setViewCalls :=
          [((.number (.finite 40.0), .number (.finite (-74.0))), .number (.finite 13))] } }

/-! ## Basic facts -/

theorem JSVal.truthy_and (a b : JSVal) : (a.and b).truthy = (a.truthy && b.truthy) := by
  unfold JSVal.and
  cases h : a.truthy <;> simp [h]

theorem JSVal.truthy_eq_false_of_missing {v : JSVal} (h : v.missing = true) :
    v.truthy = false := by
  cases v <;> simp_all [JSVal.missing, JSVal.truthy]

theorem JSVal.missing_eq_false_of_truthy {v : JSVal} (h : v.truthy = true) :
    v.missing = false := by
  cases v <;> simp_all [JSVal.missing, JSVal.truthy]

theorem JSVal.truthy_eq_false_of_isZero {v : JSVal} (h : v.isZero = true) :
    v.truthy = false := by
  cases v with
  | number n => cases n <;> simp_all [JSVal.isZero, JSVal.truthy]
  | _ => simp [JSVal.isZero] at h

theorem MapState.store_setStore (s : MapState) (c d : Category) (ms : List Marker) :
    (s.setStore c ms).store d = if d = c then ms else s.store d := by
  cases c <;> cases d <;> simp [MapState.setStore, MapState.store]

/-- On a response without error whose data is an array, the handler of a
category returns with that category's store replaced by the normalised rows. -/
theorem fetchHandler_success (c : Category) (s : MapState) (data : List Record)
    (err : JSVal) (herr : err.truthy = false) :
    fetchHandler c { data := some data, error := err } s
      = .ok (s.setStore c (specNormalize c data)) := by
  cases c <;>
    simp [fetchHandler, getFoodSites, getShelters, getSexHealthClinics, getCunyFoodSites,
      herr, MapState.setStore, specNormalize, specFieldMap, JSVal.truthy_and] <;>
    first
      | rfl
      | (congr 1; congr 1; funext site; simp [specValid])

/-- On a response with a truthy error the handler of a category returns with the
state it was given. -/
theorem fetchHandler_failure (c : Category) (res : PostgrestResponse) (s : MapState)
    (herr : res.error.truthy = true) : fetchHandler c res s = .ok s := by
  cases c <;>
    simp [fetchHandler, getFoodSites, getShelters, getSexHealthClinics, getCunyFoodSites, herr]

theorem specValid_coords {c : Category} {site : Record}
    (h : specValid (specFieldMap c) site = true) :
    (site.get c.latField).truthy = true ∧ (site.get c.lonField).truthy = true := by
  cases c <;>
    simp_all [specValid, specFieldMap, Category.latField, Category.lonField]

theorem specValid_lat_lon (c : Category) (site : Record)
    (h : (site.get c.latField).truthy = false ∨ (site.get c.lonField).truthy = false) :
    specValid (specFieldMap c) site = false := by
  cases hv : specValid (specFieldMap c) site
  · rfl
  · have := specValid_coords hv
    rcases h with h | h <;> simp_all

theorem specNormalize_remove (c : Category) (pre post : List Record) (site : Record)
    (h : specValid (specFieldMap c) site = false) :
    specNormalize c (pre ++ site :: post) = specNormalize c (pre ++ post) := by
  simp [specNormalize, List.filter_append, List.filter_cons, h]

theorem fetchHandler_remove (c : Category) (s : MapState) (err : JSVal)
    (pre post : List Record) (site : Record) (herr : err.truthy = false)
    (h : specValid (specFieldMap c) site = false) :
    fetchHandler c { data := some (pre ++ site :: post), error := err } s
      = fetchHandler c { data := some (pre ++ post), error := err } s := by
  rw [fetchHandler_success c s _ err herr, fetchHandler_success c s _ err herr,
    specNormalize_remove c pre post site h]

theorem fetchHandler_null (c : Category) (s : MapState) (err : JSVal)
    (herr : err.truthy = false) :
    fetchHandler c { data := none, error := err } s = .error nullData := by
  cases c <;>
    simp [fetchHandler, getFoodSites, getShelters, getSexHealthClinics, getCunyFoodSites, herr]

theorem complete_success (c : Category) (s : MapState) (data : List Record) (err : JSVal)
    (herr : err.truthy = false) :
    complete s { category := c, response := { data := some data, error := err } }
      = s.setStore c (specNormalize c data) := by
  simp [complete, fetchHandler_success c s data err herr]

theorem complete_failure (c : Category) (res : PostgrestResponse) (s : MapState)
    (herr : res.error.truthy = true) :
    complete s { category := c, response := res } = s := by
  simp [complete, fetchHandler_failure c res s herr]

theorem complete_cases (s : MapState) (comp : Completion) :
    complete s comp = s ∨
      ∃ data, complete s comp = s.setStore comp.category (specNormalize comp.category data) := by
  obtain ⟨c, ⟨data, err⟩⟩ := comp
  cases herr : err.truthy
  · cases data with
    | none =>
      left
      simp [complete, fetchHandler_null c s err herr]
    | some data =>
      right
      exact ⟨data, complete_success c s data err herr⟩
  · left
    exact complete_failure c _ s herr

theorem specFieldMap_latField (c : Category) : (specFieldMap c).latField = c.latField := by
  cases c <;> rfl

theorem specFieldMap_lonField (c : Category) : (specFieldMap c).lonField = c.lonField := by
  cases c <;> rfl

theorem mem_specNormalize {c : Category} {data : List Record} {m : Marker}
    (h : m ∈ specNormalize c data) :
    ∃ site ∈ data, specValid (specFieldMap c) site = true ∧
      m = specMarker (specFieldMap c) site := by
  simp only [specNormalize, List.mem_map, List.mem_filter] at h
  obtain ⟨site, ⟨hmem, hvalid⟩, rfl⟩ := h
  exact ⟨site, hmem, hvalid, rfl⟩

theorem specNormalize_geocode_truthy {c : Category} {data : List Record} {m : Marker}
    (h : m ∈ specNormalize c data) :
    m.geocode.1.truthy = true ∧ m.geocode.2.truthy = true := by
  obtain ⟨site, _, hvalid, rfl⟩ := mem_specNormalize h
  have := specValid_coords hvalid
  simpa [specMarker, specFieldMap_latField, specFieldMap_lonField] using this

theorem foldl_complete_geocode_truthy (cs : List Completion) (s : MapState)
    (hs : ∀ c m, m ∈ s.store c → m.geocode.1.truthy = true ∧ m.geocode.2.truthy = true) :
    ∀ c m, m ∈ (cs.foldl complete s).store c →
      m.geocode.1.truthy = true ∧ m.geocode.2.truthy = true := by
  induction cs generalizing s with
  | nil => simpa using hs
  | cons comp cs ih =>
    simp only [List.foldl_cons]
    apply ih
    intro c m hm
    rcases complete_cases s comp with h | ⟨data, h⟩
    · rw [h] at hm
      exact hs c m hm
    · rw [h, MapState.store_setStore] at hm
      split at hm
      · exact specNormalize_geocode_truthy hm
      · exact hs c m hm

theorem setStore_comm (s : MapState) (c d : Category) (a b : List Marker) (h : c ≠ d) :
    (s.setStore c a).setStore d b = (s.setStore d b).setStore c a := by
  cases c <;> cases d <;> simp_all [MapState.setStore]

/-! ## Claims -/

/-- C1: a row whose latitude or longitude field is missing contributes nothing to
the store its category's handler writes (the handler gives the same result with
the row removed from the fetched sequence), and in every state reached from the
mount state by any sequence of fetch completions every marker of every store has
both components of its geocode present. -/
theorem missing_coordinate_never_stored :
    (∀ (c : Category) (s : MapState) (err : JSVal) (pre post : List Record) (site : Record),
      err.truthy = false →
      ((site.get c.latField).missing = true ∨ (site.get c.lonField).missing = true) →
      fetchHandler c { data := some (pre ++ site :: post), error := err } s
        = fetchHandler c { data := some (pre ++ post), error := err } s) ∧
    (∀ (cs : List Completion) (c : Category) (m : Marker),
      m ∈ (afterCompletions cs).store c →
      m.geocode.1.missing = false ∧ m.geocode.2.missing = false) := by
  refine ⟨?_, ?_⟩
  · intro c s err pre post site herr hmiss
    apply fetchHandler_remove c s err pre post site herr
    apply specValid_lat_lon
    rcases hmiss with h | h
    · exact Or.inl (JSVal.truthy_eq_false_of_missing h)
    · exact Or.inr (JSVal.truthy_eq_false_of_missing h)
  · intro cs c m hm
    have h := foldl_complete_geocode_truthy cs MapState.init
      (by intro c m hm; cases c <;> simp [MapState.store, MapState.init] at hm) c m hm
    exact ⟨JSVal.missing_eq_false_of_truthy h.1, JSVal.missing_eq_false_of_truthy h.2⟩

/-- Scenario B, an instance of C1: a shelters response whose only row lacks
`Longitude` gives the same state as an empty response, so the shelter store
stays empty. -/
theorem missing_coordinate_never_stored_witness :
    getShelters
        { data := some [[("Center Name", .string "Haven"), ("Latitude", .number (.finite 40.7))]],
          error := .null } MapState.init
      = getShelters { data := some [], error := .null } MapState.init :=
  missing_coordinate_never_stored.1 .shelters MapState.init .null [] []
    [("Center Name", .string "Haven"), ("Latitude", .number (.finite 40.7))]
    (by decide) (Or.inr (by decide))

/-- C2: for food sites (contact field PHONE) and campus food sites (contact
field phone), a row whose contact field is missing contributes nothing to the
store, whatever its latitude and longitude fields hold. -/
theorem missing_contact_excluded (s : MapState) (err : JSVal) (pre post : List Record)
    (site : Record) (herr : err.truthy = false) :
    ((site.get "PHONE").missing = true →
      getFoodSites { data := some (pre ++ site :: post), error := err } s
        = getFoodSites { data := some (pre ++ post), error := err } s) ∧
    ((site.get "phone").missing = true →
      getCunyFoodSites { data := some (pre ++ site :: post), error := err } s
        = getCunyFoodSites { data := some (pre ++ post), error := err } s) := by
  refine ⟨?_, ?_⟩
  · intro h
    apply fetchHandler_remove .food s err pre post site herr
    simp [specValid, specFieldMap, JSVal.truthy_eq_false_of_missing h]
  · intro h
    apply fetchHandler_remove .cunyFood s err pre post site herr
    simp [specValid, specFieldMap, JSVal.truthy_eq_false_of_missing h]

/-- An instance of C2: a food row and a campus food row with truthy coordinates
and no contact field each give the same state as an empty response. -/
theorem missing_contact_excluded_witness :
    getFoodSites
        { data := some [[("LATITUDE", .number (.finite 40.7)),
                         ("LONGITUDE", .number (.finite (-73.9))),
                         ("PROGRAM", .string "Community Pantry")]],
          error := .null } MapState.init
      = getFoodSites { data := some [], error := .null } MapState.init ∧
    getCunyFoodSites
        { data := some [[("Latitude", .number (.finite 40.7)),
                         ("Longitude", .number (.finite (-73.9))),
                         ("School", .string "Hunter College")]],
          error := .null } MapState.init
      = getCunyFoodSites { data := some [], error := .null } MapState.init :=
  ⟨(missing_contact_excluded MapState.init .null [] []
      [("LATITUDE", .number (.finite 40.7)), ("LONGITUDE", .number (.finite (-73.9))),
       ("PROGRAM", .string "Community Pantry")] (by decide)).1 (by decide),
   (missing_contact_excluded MapState.init .null [] []
      [("Latitude", .number (.finite 40.7)), ("Longitude", .number (.finite (-73.9))),
       ("School", .string "Hunter College")] (by decide)).2 (by decide)⟩

/-- C3: on a successful fetch (no error, an array of rows) the handler of a
category returns with that category's store replaced by the rows that satisfy
the specification's validity predicate, in their order, each converted by the
specification's field table, whatever the store held before; in particular the
single food row of scenario A yields a food store holding exactly the marker of
scenario A. -/
theorem fetch_success_replaces_store (c : Category) (s : MapState) (data : List Record)
    (err : JSVal) (herr : err.truthy = false) :
    fetchHandler c { data := some data, error := err } s
      = .ok (s.setStore c (specNormalize c data)) ∧
    getFoodSites { data := some [scenarioARow], error := err } s
      = .ok { s with foodSiteMarkers := [scenarioAMarker] } := by
  refine ⟨fetchHandler_success c s data err herr, ?_⟩
  have h := fetchHandler_success .food s [scenarioARow] err herr
  simp only [fetchHandler] at h
  rw [h]
  have hn : specNormalize .food [scenarioARow] = [scenarioAMarker] := by decide!
  rw [hn]
  rfl

/-- An instance of C3: a campus food response with a valid row between two
invalid ones, arriving when the campus food store already holds a marker. -/
theorem fetch_success_replaces_store_witness :
    getCunyFoodSites
        { data := some [[("Latitude", .number (.finite 40.7)), ("School", .string "A")],
                        [("Latitude", .number (.finite 40.8)),
                         ("Longitude", .number (.finite (-73.9))),
                         ("School", .string "B"), ("phone", .string "555-0000")],
                        [("Latitude", .number (.finite 40.9)),
                         ("Longitude", .number (.finite (-73.8))), ("School", .string "C")]],
          error := .null }
        { MapState.init with cunyFoodSiteMarkers := [scenarioAMarker] }
      = .ok { MapState.init with
              cunyFoodSiteMarkers :=
                [{ geocode := (.number (.finite 40.8), .number (.finite (-73.9))),
                   popUp := .string "B", contact := some (.string "555-0000") }] } :=
  (fetch_success_replaces_store .cunyFood
    { MapState.init with cunyFoodSiteMarkers := [scenarioAMarker] }
    [[("Latitude", .number (.finite 40.7)), ("School", .string "A")],
     [("Latitude", .number (.finite 40.8)), ("Longitude", .number (.finite (-73.9))),
      ("School", .string "B"), ("phone", .string "555-0000")],
     [("Latitude", .number (.finite 40.9)), ("Longitude", .number (.finite (-73.8))),
      ("School", .string "C")]]
    .null (by decide)).1.trans (by decide!)

/-- C4: when the fetch of a category completes with an error, the handler
returns normally with the state it was given, so all four stores are as they
were; and when the food fetch fails while the other three succeed, in whatever
order the four responses arrive after mount, the three stores are populated and
the food store is empty. -/
theorem fetch_error_leaves_stores :
    (∀ (c : Category) (res : PostgrestResponse) (s : MapState),
      res.error.truthy = true →
      fetchHandler c res s = .ok s ∧
        complete s { category := c, response := res } = s) ∧
    (∀ (failed : PostgrestResponse) (d1 d2 d3 : List Record) (e1 e2 e3 : JSVal)
      (cs : List Completion),
      failed.error.truthy = true → e1.truthy = false → e2.truthy = false →
      e3.truthy = false →
      cs.Perm
        [{ category := .food, response := failed },
         { category := .shelters, response := { data := some d1, error := e1 } },
         { category := .sexHealthClinics, response := { data := some d2, error := e2 } },
         { category := .cunyFood, response := { data := some d3, error := e3 } }] →
      afterCompletions cs
        = { MapState.init with
            shelterMarkers := specNormalize .shelters d1,
            sexHealthClinicMarkers := specNormalize .sexHealthClinics d2,
            cunyFoodSiteMarkers := specNormalize .cunyFood d3 }) := by
  refine ⟨?_, ?_⟩
  · intro c res s herr
    exact ⟨fetchHandler_failure c res s herr, complete_failure c res s herr⟩
  · intro failed d1 d2 d3 e1 e2 e3 cs hf h1 h2 h3 hperm
    unfold afterCompletions
    rw [hperm.symm.foldl_eq' ?_ MapState.init |>.symm]
    · simp [complete_failure _ _ _ hf, complete_success _ _ _ _ h1,
        complete_success _ _ _ _ h2, complete_success _ _ _ _ h3, MapState.setStore]
    · intro x hx y hy z
      simp only [List.mem_cons, List.mem_singleton, List.not_mem_nil, or_false] at hx hy
      rcases hx with rfl | rfl | rfl | rfl <;> rcases hy with rfl | rfl | rfl | rfl <;>
        simp [complete_failure _ _ _ hf, complete_success _ _ _ _ h1,
          complete_success _ _ _ _ h2, complete_success _ _ _ _ h3, MapState.setStore]

/-- Scenario C, an instance of C4: the food handler returns normally on the
failed response from a state whose food store is not empty, and when the failed
food response arrives second among the four, the food store is empty and the
other three stores hold the markers of their rows. -/
theorem fetch_error_leaves_stores_witness :
    (getFoodSites failedResponse { MapState.init with foodSiteMarkers := [scenarioAMarker] }
      = .ok { MapState.init with foodSiteMarkers := [scenarioAMarker] }) ∧
    afterCompletions
        [{ category := .cunyFood, response := { data := some [cunyRow], error := .null } },
         { category := .food, response := failedResponse },
         { category := .sexHealthClinics,
           response := { data := some [clinicRow], error := .null } },
         { category := .shelters, response := { data := some [shelterRow], error := .null } }]
      = { MapState.init with
          shelterMarkers := specNormalize .shelters [shelterRow],
          sexHealthClinicMarkers := specNormalize .sexHealthClinics [clinicRow],
          cunyFoodSiteMarkers := specNormalize .cunyFood [cunyRow] } :=
  ⟨(fetch_error_leaves_stores.1 .food failedResponse
      { MapState.init with foodSiteMarkers := [scenarioAMarker] } (by decide)).1,
   fetch_error_leaves_stores.2 failedResponse [shelterRow] [clinicRow] [cunyRow]
      .null .null .null _ (by decide) (by decide) (by decide) (by decide) (by decide!)⟩

/-- C10: the validity check is a truthiness check, so for each of the four
categories a row whose latitude field or longitude field is the number zero
contributes nothing to the store, whatever its other fields hold. -/
theorem zero_coordinate_rejected (c : Category) (s : MapState) (err : JSVal)
    (pre post : List Record) (site : Record) (herr : err.truthy = false)
    (hzero : (site.get c.latField).isZero = true ∨ (site.get c.lonField).isZero = true) :
    fetchHandler c { data := some (pre ++ site :: post), error := err } s
      = fetchHandler c { data := some (pre ++ post), error := err } s := by
  apply fetchHandler_remove c s err pre post site herr
  apply specValid_lat_lon
  rcases hzero with h | h
  · exact Or.inl (JSVal.truthy_eq_false_of_isZero h)
  · exact Or.inr (JSVal.truthy_eq_false_of_isZero h)

/-- An instance of C10: a food row on the equator, complete in every other field,
gives the same state as an empty response. -/
theorem zero_coordinate_rejected_witness :
    getFoodSites
        { data := some [[("LATITUDE", .number (.finite 0)),
                         ("LONGITUDE", .number (.finite (-73.9))),
                         ("PROGRAM", .string "Community Pantry"),
                         ("PHONE", .string "555-1234"), ("ADDRESS", .string "1 Main St")]],
          error := .null } MapState.init
      = getFoodSites { data := some [], error := .null } MapState.init :=
  zero_coordinate_rejected .food MapState.init .null [] []
    [("LATITUDE", .number (.finite 0)), ("LONGITUDE", .number (.finite (-73.9))),
     ("PROGRAM", .string "Community Pantry"), ("PHONE", .string "555-1234"),
     ("ADDRESS", .string "1 Main St")]
    (by decide) (Or.inl (by decide))

/-! ### Recentering -/

theorem JSVal.isDefined_of_ne {v : JSVal} (h : v ≠ .undefined) : v.isDefined = true := by
  cases v <;> simp_all [JSVal.isDefined]

theorem recenterEffect_undefined (lat lng : JSVal) (map : LeafletMap)
    (h : lat = .undefined ∨ lng = .undefined) : recenterEffect lat lng map = map := by
  rcases h with h | h <;> simp [recenterEffect, h, JSVal.isDefined]

theorem recenterEffect_defined (lat lng : JSVal) (map : LeafletMap)
    (hlat : lat ≠ .undefined) (hlng : lng ≠ .undefined) :
    recenterEffect lat lng map = map.setView (lat, lng) (.number (.finite 13)) := by
  simp [recenterEffect, JSVal.isDefined_of_ne hlat, JSVal.isDefined_of_ne hlng]

theorem RecenterAutomatically_deps (lat lng : JSVal) (r : Recenter) :
    (RecenterAutomatically lat lng r).deps = some (lat, lng) := by
  unfold RecenterAutomatically
  split <;> simp_all

theorem RecenterAutomatically_undefined (lat lng : JSVal) (r : Recenter)
    (h : lat = .undefined ∨ lng = .undefined) :
    (RecenterAutomatically lat lng r).map = r.map := by
  unfold RecenterAutomatically
  split
  · rfl
  · exact recenterEffect_undefined lat lng r.map h

theorem RecenterAutomatically_centered (lat lng : JSVal) (r : Recenter)
    (h : r.centered) : (RecenterAutomatically lat lng r).centered := by
  unfold RecenterAutomatically
  split
  · exact h
  · intro lat1 lng1 hdeps hlat hlng
    simp only [Option.some.injEq, Prod.mk.injEq] at hdeps
    obtain ⟨rfl, rfl⟩ := hdeps
    simp [recenterEffect_defined lat lng r.map hlat hlng, LeafletMap.setView,
      LeafletMap.viewport]

theorem recenterAll_centered (updates : List (JSVal × JSVal)) (r : Recenter)
    (h : r.centered) : (recenterAll updates r).centered := by
  induction updates generalizing r with
  | nil => exact h
  | cons u us ih =>
    exact ih _ (RecenterAutomatically_centered u.1 u.2 r h)

theorem recenterAll_append (us vs : List (JSVal × JSVal)) (r : Recenter) :
    recenterAll (us ++ vs) r = recenterAll vs (recenterAll us r) := by
  simp [recenterAll, List.foldl_append]

/-- C5: over any sequence of commits of `RecenterAutomatically` in each of which
`lat` or `lng` is undefined, from any state, the map is left as it was: no call
of `setView` is added to its record and its center and zoom are unchanged. The
same holds of each run of the effect body on such a pair. -/
theorem recenter_noop_while_undefined (r : Recenter) (updates : List (JSVal × JSVal))
    (h : ∀ u ∈ updates, u.1 = .undefined ∨ u.2 = .undefined) :
    (recenterAll updates r).map = r.map ∧
    (∀ u ∈ updates, ∀ map : LeafletMap, recenterEffect u.1 u.2 map = map) := by
  refine ⟨?_, fun u hu map => recenterEffect_undefined u.1 u.2 map (h u hu)⟩
  induction updates generalizing r with
  | nil => rfl
  | cons u us ih =>
    have hu := h u (List.mem_cons_self u us)
    have hrest : ∀ v ∈ us, v.1 = .undefined ∨ v.2 = .undefined :=
      fun v hv => h v (List.mem_cons_of_mem u hv)
    show (recenterAll us (RecenterAutomatically u.1 u.2 r)).map = r.map
    rw [ih _ hrest, RecenterAutomatically_undefined u.1 u.2 r hu]

/-- An instance of C5: three partial locations delivered to a map the viewer has
moved leave that map as it is. -/
theorem recenter_noop_while_undefined_witness :
    (recenterAll
        [(.undefined, .undefined), (.number (.finite 40.0), .undefined),
         (.undefined, .number (.finite (-74.0)))]
        { deps := none,
          map := { center := (.number (.finite 1), .number (.finite 2)),
                   zoom := .number (.finite 5), setViewCalls := [] } }).map
      = { center := (.number (.finite 1), .number (.finite 2)),
          zoom := .number (.finite 5), setViewCalls := [] } :=
  (recenter_noop_while_undefined
    { deps := none,
      map := { center := (.number (.finite 1), .number (.finite 2)),
               zoom := .number (.finite 5), setViewCalls := [] } }
    [(.undefined, .undefined), (.number (.finite 40.0), .undefined),
     (.undefined, .number (.finite (-74.0)))]
    (by decide)).1

/-- C6, as the code has it: a commit of `RecenterAutomatically` with `lat` and
`lng` both defined that differ from the pair of the previous commit (or that is
the first commit) sets the center of the map to `[lat, lng]` and its zoom to 13,
whatever the viewport was before; a commit with the pair of the previous commit
runs no effect and leaves the component as it is. The effect body itself sets
the center and zoom for every defined pair and every map; after any history of
commits since mount, a commit with a defined pair leaves the map centered on
that pair at zoom 13; and in scenario D the center is `[40.0, -74.0]` after the
first location and `[40.1, -74.0]` after the second. -/
theorem recenter_sets_center_when_pair_changes :
    (∀ (lat lng : JSVal) (r : Recenter), lat ≠ .undefined → lng ≠ .undefined →
      r.deps ≠ some (lat, lng) →
      (RecenterAutomatically lat lng r).map.viewport
        = ((lat, lng), .number (.finite 13))) ∧
    (∀ (lat lng : JSVal) (r : Recenter), r.deps = some (lat, lng) →
      RecenterAutomatically lat lng r = r) ∧
    (∀ (lat lng : JSVal) (map : LeafletMap), lat ≠ .undefined → lng ≠ .undefined →
      (recenterEffect lat lng map).viewport = ((lat, lng), .number (.finite 13))) ∧
    (∀ (updates : List (JSVal × JSVal)) (lat lng : JSVal) (map : LeafletMap),
      lat ≠ .undefined → lng ≠ .undefined →
      (recenterAll (updates ++ [(lat, lng)]) { deps := none, map := map }).map.viewport
        = ((lat, lng), .number (.finite 13))) ∧
    ((mount (.object []) >>= deliverLocation scenarioDFirst).map
        (fun w => w.recenter.map.viewport)
      = .ok ((.number (.finite 40.0), .number (.finite (-74.0))), .number (.finite 13))) ∧
    ((mount (.object []) >>= deliverLocation scenarioDFirst
        >>= deliverLocation scenarioDSecond).map (fun w => w.recenter.map.viewport)
      = .ok ((.number (.finite 40.1), .number (.finite (-74.0))), .number (.finite 13))) := by
  refine ⟨?_, ?_, ?_, ?_, by decide!, by decide!⟩
  · intro lat lng r hlat hlng hdeps
    simp [RecenterAutomatically, hdeps, recenterEffect_defined lat lng r.map hlat hlng,
      LeafletMap.setView, LeafletMap.viewport]
  · intro lat lng r hdeps
    simp [RecenterAutomatically, hdeps]
  · intro lat lng map hlat hlng
    simp [recenterEffect_defined lat lng map hlat hlng, LeafletMap.setView,
      LeafletMap.viewport]
  · intro updates lat lng map hlat hlng
    rw [recenterAll_append]
    have hc : (recenterAll updates { deps := none, map := map }).centered :=
      recenterAll_centered updates _ (by intro a b hd; simp at hd)
    have hc1 := RecenterAutomatically_centered lat lng _ hc
    exact hc1 lat lng (RecenterAutomatically_deps lat lng _) hlat hlng

/-- An instance of C6 as the code has it: from the component whose map the
viewer has moved after it was centered on `[40.0, -74.0]`, a commit with the
new pair `[40.1, -74.0]` centers the map on it at zoom 13, and a commit with
the old pair leaves the component as it is; the effect body run on a moved map
centers it; and so does a redundant delivery after two other commits. -/
theorem recenter_sets_center_when_pair_changes_witness :
    (RecenterAutomatically (.number (.finite 40.1)) (.number (.finite (-74.0)))
        movedAfterCentering).map.viewport
      = ((.number (.finite 40.1), .number (.finite (-74.0))), .number (.finite 13)) ∧
    RecenterAutomatically (.number (.finite 40.0)) (.number (.finite (-74.0)))
        movedAfterCentering
      = movedAfterCentering ∧
    (recenterEffect (.number (.finite 40.0)) (.number (.finite (-74.0)))
        { center := (.number (.finite 1), .number (.finite 2)),
          zoom := .number (.finite 5), setViewCalls := [] }).viewport
      = ((.number (.finite 40.0), .number (.finite (-74.0))), .number (.finite 13)) ∧
    (recenterAll
        ([(.undefined, .undefined), (.number (.finite 40.0), .number (.finite (-74.0)))]
          ++ [(.number (.finite 40.0), .number (.finite (-74.0)))])
        { deps := none, map := LeafletMap.init }).map.viewport
      = ((.number (.finite 40.0), .number (.finite (-74.0))), .number (.finite 13)) :=
  ⟨recenter_sets_center_when_pair_changes.1 _ _ movedAfterCentering
      (by decide) (by decide) (by decide!),
   recenter_sets_center_when_pair_changes.2.1 _ _ movedAfterCentering (by decide!),
   recenter_sets_center_when_pair_changes.2.2.1 _ _ _ (by decide) (by decide),
   recenter_sets_center_when_pair_changes.2.2.2.1 _ _ _ _ (by decide) (by decide)⟩

/-- C6 as stated fails: both components of the pair `[40.0, -74.0]` are defined,
yet a commit with that pair on the component whose map the viewer has moved to
`[1, 2]` at zoom 5 after it was centered on the same pair leaves the viewport at
`[1, 2]` and zoom 5, not at `[40.0, -74.0]` and zoom 13: the dependencies
`[lat, lng, map]` of line 21 are unchanged, so the effect does not run. -/
theorem recenter_unchanged_pair_keeps_viewport :
    JSVal.number (.finite 40.0) ≠ .undefined ∧
    JSVal.number (.finite (-74.0)) ≠ .undefined ∧
    (RecenterAutomatically (.number (.finite 40.0)) (.number (.finite (-74.0)))
        movedAfterCentering).map.viewport
      = ((.number (.finite 1), .number (.finite 2)), .number (.finite 5)) ∧
    (RecenterAutomatically (.number (.finite 40.0)) (.number (.finite (-74.0)))
        movedAfterCentering).map.viewport
      ≠ ((.number (.finite 40.0), .number (.finite (-74.0))), .number (.finite 13)) := by
  decide!

/-- C7: for a pair with both components defined, running the effect of
`RecenterAutomatically` twice leaves the same center and zoom as running it
once, and committing the component twice with the pair leaves the same state
as committing it once. -/
theorem recenter_idempotent (lat lng : JSVal) (hlat : lat ≠ .undefined)
    (hlng : lng ≠ .undefined) :
    (∀ map : LeafletMap,
      (recenterEffect lat lng (recenterEffect lat lng map)).viewport
        = (recenterEffect lat lng map).viewport) ∧
    (∀ r : Recenter,
      RecenterAutomatically lat lng (RecenterAutomatically lat lng r)
        = RecenterAutomatically lat lng r) := by
  refine ⟨?_, ?_⟩
  · intro map
    simp [recenterEffect_defined _ _ _ hlat hlng, LeafletMap.setView, LeafletMap.viewport]
  · intro r
    have hd := RecenterAutomatically_deps lat lng r
    generalize RecenterAutomatically lat lng r = r1 at hd
    simp [RecenterAutomatically, hd]

/-- An instance of C7 at the pair of scenario D on the map as first created. -/
theorem recenter_idempotent_witness :
    (recenterEffect (.number (.finite 40.0)) (.number (.finite (-74.0)))
        (recenterEffect (.number (.finite 40.0)) (.number (.finite (-74.0)))
          LeafletMap.init)).viewport
      = (recenterEffect (.number (.finite 40.0)) (.number (.finite (-74.0)))
          LeafletMap.init).viewport :=
  (recenter_idempotent (.number (.finite 40.0)) (.number (.finite (-74.0)))
    (by decide) (by decide)).1 LeafletMap.init

/-! ### The location prop -/

/-- A location object that lacks `latitude` or `longitude` is handled without
failure and without a call of `setView`. -/
theorem incomplete_location_no_centering (props : Record) (w : Widget)
    (h : Record.get props "latitude" = .undefined ∨
      Record.get props "longitude" = .undefined) :
    ∃ w1, deliverLocation (.object props) w = .ok w1 ∧ w1.recenter.map = w.recenter.map := by
  refine ⟨_, rfl, ?_⟩
  exact RecenterAutomatically_undefined _ _ _ h

/-- C8, evaluated on the code: when the `location` prop is `undefined` (or
`null`), storing it in `currLoc` makes the next render of `Map` throw a
TypeError at the read of `currLoc.latitude`; this holds for a delivery to any
mounted widget and for mounting the widget without a location. -/
theorem undefined_location_throws (w : Widget) :
    deliverLocation .undefined w
      = .error (.typeError "Cannot read properties of undefined (reading latitude)") ∧
    deliverLocation .null w
      = .error (.typeError "Cannot read properties of null (reading latitude)") ∧
    mount .undefined
      = .error (.typeError "Cannot read properties of undefined (reading latitude)") := by
  refine ⟨rfl, rfl, ?_⟩
  decide!

/-! ### The marker layer -/

theorem getElem?_append_add {α : Type} (l1 l2 : List α) (i : Nat) :
    (l1 ++ l2)[l1.length + i]? = l2[i]? := by
  rw [List.getElem?_append_right (Nat.le_add_right _ _), Nat.add_sub_cancel_left]

/-- C9: the marker layer has exactly one pin per stored marker: its length is the
sum of the lengths of the four stores, and the pin of the marker at index `i` of
a store stands at index `i` of that store's segment (food sites, then shelters,
then clinics, then campus food sites), at the marker's geocode, with the icon of
the category and a popup holding the label, plus contact and address for a food
site and contact for a campus food site. -/
theorem marker_layer_one_pin_per_marker (s : MapState) :
    (markerLayer s).length
      = s.foodSiteMarkers.length + s.shelterMarkers.length
        + s.sexHealthClinicMarkers.length + s.cunyFoodSiteMarkers.length ∧
    (∀ (i : Nat) (m : Marker), s.foodSiteMarkers[i]? = some m →
      (markerLayer s)[i]?
        = some { key := "food-" ++ toString i,
                 position := m.geocode,
                 icon := foodSiteIcon,
                 popup := [[.value m.popUp],
                           [.text "Contact: ", .value (m.contact.getD .undefined)],
                           [.text "Address: ", .value (m.address.getD .undefined)]] }) ∧
    (∀ (i : Nat) (m : Marker), s.shelterMarkers[i]? = some m →
      (markerLayer s)[s.foodSiteMarkers.length + i]?
        = some { key := "shelter-" ++ toString i,
                 position := m.geocode,
                 icon := shelterMarkerIcon,
                 popup := [[.value m.popUp]] }) ∧
    (∀ (i : Nat) (m : Marker), s.sexHealthClinicMarkers[i]? = some m →
      (markerLayer s)[s.foodSiteMarkers.length + s.shelterMarkers.length + i]?
        = some { key := "clinic-" ++ toString i,
                 position := m.geocode,
                 icon := sexHealthClinicMarkerIcon,
                 popup := [[.value m.popUp]] }) ∧
    (∀ (i : Nat) (m : Marker), s.cunyFoodSiteMarkers[i]? = some m →
      (markerLayer s)[s.foodSiteMarkers.length + s.shelterMarkers.length
          + s.sexHealthClinicMarkers.length + i]?
        = some { key := "cunyfood-" ++ toString i,
                 position := m.geocode,
                 icon := cunyFoodMarkerIcon,
                 popup := [[.value m.popUp], [.value (m.contact.getD .undefined)]] }) := by
  have hA : (s.foodSiteMarkers.mapIdx foodPin).length = s.foodSiteMarkers.length :=
    List.length_mapIdx
  have hB : (s.shelterMarkers.mapIdx shelterPin).length = s.shelterMarkers.length :=
    List.length_mapIdx
  have hC : (s.sexHealthClinicMarkers.mapIdx clinicPin).length
      = s.sexHealthClinicMarkers.length := List.length_mapIdx
  unfold markerLayer
  refine ⟨?_, ?_, ?_, ?_, ?_⟩
  · simp only [List.length_append, List.length_mapIdx]
  · intro i m h
    have hi : i < s.foodSiteMarkers.length := (List.getElem?_eq_some.mp h).1
    rw [List.append_assoc, List.append_assoc,
      List.getElem?_append_left (by rw [hA]; exact hi), List.getElem?_mapIdx, h]
    rfl
  · intro i m h
    have hi : i < s.shelterMarkers.length := (List.getElem?_eq_some.mp h).1
    rw [List.append_assoc, List.append_assoc, ← hA, getElem?_append_add,
      List.getElem?_append_left (by rw [hB]; exact hi), List.getElem?_mapIdx, h]
    rfl
  · intro i m h
    have hi : i < s.sexHealthClinicMarkers.length := (List.getElem?_eq_some.mp h).1
    rw [List.append_assoc, List.append_assoc, Nat.add_assoc, ← hA, getElem?_append_add,
      ← hB, getElem?_append_add,
      List.getElem?_append_left (by rw [hC]; exact hi), List.getElem?_mapIdx, h]
    rfl
  · intro i m h
    rw [List.append_assoc, List.append_assoc, Nat.add_assoc, Nat.add_assoc, ← hA,
      getElem?_append_add, ← hB, getElem?_append_add, ← hC, getElem?_append_add,
      List.getElem?_mapIdx, h]
    rfl

/-- An instance of C9: with the marker of scenario A in the food store and one
marker in the campus food store, the layer has two pins, the second being the
campus food pin. -/
theorem marker_layer_one_pin_per_marker_witness :
    (markerLayer
        { MapState.init with
          foodSiteMarkers := [scenarioAMarker],
          cunyFoodSiteMarkers := specNormalize .cunyFood [cunyRow] })[1 + 0 + 0 + 0]?
      = some { key := "cunyfood-" ++ toString 0,
               position := (.number (.finite 40.76), .number (.finite (-73.96))),
               icon := cunyFoodMarkerIcon,
               popup := [[.value (.string "Hunter College")],
                         [.value (.string "555-0000")]] } :=
  (marker_layer_one_pin_per_marker
    { MapState.init with
      foodSiteMarkers := [scenarioAMarker],
      cunyFoodSiteMarkers := specNormalize .cunyFood [cunyRow] }).2.2.2.2 0
    { geocode := (.number (.finite 40.76), .number (.finite (-73.96))),
      popUp := .string "Hunter College", contact := some (.string "555-0000") }
    (by decide!)

end MapJsx
